import Mathlib

/-!
# resume_reader: the `POST /api/parse` route of `server.js`

A shallow embedding of the request handler of `server.js` (lines 89-164), of the helper
functions it calls (lines 33-86) and of the JavaScript operators it uses on the parsed
completion (`.spam`, `==`, `===`, `startsWith`).

* Library and host calls (`pdf-parse`, `mammoth`, `tesseract.js`, the OpenAI client and
  `JSON.parse`) are fields of an environment `Env`: the handler is verified for every
  behaviour of these.
* An `async` function is a value of `Run α`: the external calls it made, in order, and
  either its result or the way it was abandoned, by an exception thrown to the code that
  awaits it or by an exception that nothing catches, which ends the process.
* Numbers are IEEE-754 binary64 values, given by their 64-bit pattern as a `Nat`
  (read modulo `2 ^ 64`).
-/

namespace ResumeReader

/-! ## JavaScript values -/

/-- Values of the JavaScript fragment the handler works with: what `JSON.parse` can
return (`null`, booleans, numbers, strings, arrays, plain objects) and `undefined`, the
result of reading a property that is not there.  An object is its own properties in
enumeration order; a number is a binary64 bit pattern. -/
inductive JSValue where
  | undefined
  | null
  | bool (b : Bool)
  | num (bits : Nat)
  | str (s : String)
  | arr (items : List JSValue)
  | obj (props : List (String × JSValue))

/-- A thrown `Error` object: its `name` and its `message`. -/
structure JSError where
  name : String
  message : String
deriving DecidableEq, Repr

/-- The two ways a computation is abandoned.  An exception is `thrown` to the code that
awaits the computation, where a surrounding `try` catches it.  An exception is
`uncaught` when it is thrown from a callback of the event loop, outside every `try`:
`server.js` installs no `uncaughtException` handler, so the process exits and the
request gets no response. -/
inductive Failure where
  | thrown (error : JSError)
  | uncaught (error : JSError)
deriving DecidableEq, Repr

/-! ## Numbers: binary64 bit patterns, `StringToNumber`, `Number::toString` -/

/-- The bit pattern of `NaN`. -/
def bitsNaN : Nat := 0x7FF8000000000000
/-- The bit pattern of `+Infinity`. -/
def bitsInfinity : Nat := 0x7FF0000000000000
/-- The bit pattern of `1`, which is `ToNumber(true)`. -/
def bitsOne : Nat := 0x3FF0000000000000
/-- The sign bit. -/
def bitsSign : Nat := 0x8000000000000000

/-- The 11-bit biased exponent of a bit pattern. -/
def expField (x : Nat) : Nat := x % 2 ^ 64 / 2 ^ 52 % 2048
/-- The 52-bit fraction of a bit pattern. -/
def fracField (x : Nat) : Nat := x % 2 ^ 52
/-- Whether the sign bit is set. -/
def isNegative (x : Nat) : Bool := decide (2 ^ 63 ≤ x % 2 ^ 64)
/-- Whether the bit pattern is a `NaN`. -/
def isNaN (x : Nat) : Bool := expField x == 2047 && fracField x != 0
/-- Whether the bit pattern is `+0` or `-0`. -/
def isZero (x : Nat) : Bool := x % 2 ^ 63 == 0

/-- The operation `Number::equal`: `NaN` equals nothing, `+0` equals `-0`, any other number equals
itself only. -/
def numberEqual (x y : Nat) : Bool :=
  if isNaN x || isNaN y then false
  else if x % 2 ^ 64 == y % 2 ^ 64 then true
  else isZero x && isZero y

/-- The integer `e` with `2^e ≤ n/d < 2^(e+1)`, for `0 < n` and `0 < d`. -/
def floorLog2 (n d : Nat) : Int :=
  let l : Int := (Nat.log2 n : Int) - (Nat.log2 d : Int)
  let above : Bool :=
    if 0 ≤ l then decide (d * 2 ^ l.toNat ≤ n) else decide (d ≤ n * 2 ^ (-l).toNat)
  if above then l else l - 1

/-- The operation `RoundMVResult`: the bit pattern of the binary64 value nearest to the non-negative
rational `n / d`, ties to the even significand, `+Infinity` on overflow. -/
def roundMV (n d : Nat) : Nat :=
  if n = 0 then 0
  else
    let e : Int := max (floorLog2 n d) (-1022)
    if 1023 < e then bitsInfinity
    else
      let u : Int := e - 52
      let N := n * 2 ^ (-u).toNat
      let D := d * 2 ^ u.toNat
      let f := N / D
      let r := N % D
      let m := if D < 2 * r || (2 * r == D && f % 2 == 1) then f + 1 else f
      min ((e + 1022).toNat * 2 ^ 52 + m) bitsInfinity

/-- The production `StrWhiteSpaceChar`: the white space and line terminator code points. -/
def isStrWhiteSpaceChar (c : Char) : Bool :=
  let n := c.toNat
  n == 0x9 || n == 0xA || n == 0xB || n == 0xC || n == 0xD || n == 0x20 || n == 0xA0
    || n == 0x1680 || (0x2000 ≤ n && n ≤ 0x200A) || n == 0x2028 || n == 0x2029
    || n == 0x202F || n == 0x205F || n == 0x3000 || n == 0xFEFF

/-- Strip leading and trailing `StrWhiteSpaceChar`s. -/
def trimStrWhiteSpace (cs : List Char) : List Char :=
  ((cs.dropWhile isStrWhiteSpaceChar).reverse.dropWhile isStrWhiteSpaceChar).reverse

/-- The value of a digit in the given radix (at most 16), if it is one. -/
def digitValue (radix : Nat) (c : Char) : Option Nat :=
  let n := c.toNat
  let v : Option Nat :=
    if 48 ≤ n && n ≤ 57 then some (n - 48)
    else if 97 ≤ n && n ≤ 102 then some (n - 87)
    else if 65 ≤ n && n ≤ 70 then some (n - 55)
    else none
  match v with
  | some k => if k < radix then some k else none
  | none => none

/-- The value of a digit sequence, continuing from `acc`; `none` at a non-digit. -/
def digitsValueAux (radix : Nat) : Nat → List Char → Option Nat
  | acc, [] => some acc
  | acc, c :: cs =>
    match digitValue radix c with
    | some k => digitsValueAux radix (acc * radix + k) cs
    | none => none

/-- The value of a non-empty digit sequence. -/
def digitsValue (radix : Nat) (cs : List Char) : Option Nat :=
  if cs.isEmpty then none else digitsValueAux radix 0 cs

/-- A decimal digit. -/
def isDecimalDigit (c : Char) : Bool := (digitValue 10 c).isSome

/-- The production `NonDecimalIntegerLiteral`: hexadecimal, octal and binary integers. -/
def nonDecimalIntegerLiteral : List Char → Option Nat
  | '0' :: 'x' :: ds => digitsValue 16 ds
  | '0' :: 'X' :: ds => digitsValue 16 ds
  | '0' :: 'o' :: ds => digitsValue 8 ds
  | '0' :: 'O' :: ds => digitsValue 8 ds
  | '0' :: 'b' :: ds => digitsValue 2 ds
  | '0' :: 'B' :: ds => digitsValue 2 ds
  | _ => none

/-- The production `ExponentPart`, optional: the rest of a decimal literal after its digits. -/
def exponentPart : List Char → Option Int
  | [] => some 0
  | c :: cs =>
    if c == 'e' || c == 'E' then
      match cs with
      | '+' :: ds => (digitsValue 10 ds).map Int.ofNat
      | '-' :: ds => (digitsValue 10 ds).map (fun k => - Int.ofNat k)
      | ds => (digitsValue 10 ds).map Int.ofNat
    else none

/-- The mathematical value of an unsigned decimal literal. -/
inductive MathValue where
  | infinity
  | quotient (n d : Nat)

/-- The production `StrUnsignedDecimalLiteral`: `Infinity`, or digits with an optional
fraction and an optional exponent. -/
def strUnsignedDecimalLiteral (cs : List Char) : Option MathValue :=
  if cs == "Infinity".toList then some MathValue.infinity
  else
    let ip := cs.takeWhile isDecimalDigit
    let r1 := cs.dropWhile isDecimalDigit
    let (fp, r2, dot) :=
      match r1 with
      | '.' :: r => (r.takeWhile isDecimalDigit, r.dropWhile isDecimalDigit, true)
      | r => ([], r, false)
    if ip.isEmpty && fp.isEmpty then none
    else if dot == false && ip.isEmpty then none
    else
      match digitsValueAux 10 0 (ip ++ fp), exponentPart r2 with
      | some m, some e =>
        let e10 : Int := e - fp.length
        if 0 ≤ e10 then some (MathValue.quotient (m * 10 ^ e10.toNat) 1)
        else some (MathValue.quotient m (10 ^ (-e10).toNat))
      | _, _ => none

/-- The binary64 bit pattern of a mathematical value. -/
def mvBits : MathValue → Nat
  | MathValue.infinity => bitsInfinity
  | MathValue.quotient n d => roundMV n d

/-- The operation `StringToNumber`: `ToNumber` of a string.  White space is trimmed, the
empty string is `+0`, a string that is no `StringNumericLiteral` is `NaN`. -/
def stringToNumber (s : String) : Nat :=
  let cs := trimStrWhiteSpace s.toList
  if cs.isEmpty then 0
  else
    match nonDecimalIntegerLiteral cs with
    | some v => roundMV v 1
    | none =>
      match cs with
      | '+' :: r => ((strUnsignedDecimalLiteral r).map mvBits).getD bitsNaN
      | '-' :: r =>
        ((strUnsignedDecimalLiteral r).map (fun v => bitsSign + mvBits v)).getD bitsNaN
      | r => ((strUnsignedDecimalLiteral r).map mvBits).getD bitsNaN

/-- Exact value `N / D` of a finite binary64 bit pattern (sign ignored). -/
def finiteValue (x : Nat) : Nat × Nat :=
  let ex := expField x
  let m := if ex == 0 then fracField x else 2 ^ 52 + fracField x
  let e : Int := (max ex 1 : Nat) - 1075
  if 0 ≤ e then (m * 2 ^ e.toNat, 1) else (m, 2 ^ (-e).toNat)

/-- The integer `n` with `10^(n-1) ≤ N/D < 10^n`, for `0 < N`. -/
def decimalExponent (N D : Nat) : Int :=
  if D ≤ N then (Nat.log 10 (N / D) : Int) + 1
  else - (Nat.log 10 ((D - 1) / N) : Int)

/-- The rational `s × 10^e` as a numerator and a denominator. -/
def scaled (s : Nat) (e : Int) : Nat × Nat :=
  if 0 ≤ e then (s * 10 ^ e.toNat, 1) else (s, 10 ^ (-e).toNat)

/-- Candidates `(s, n)`, standing for `s × 10^(n-k)`, on both sides of `N / D`. -/
def digitCandidates (N D : Nat) (n0 : Int) (k : Nat) : List (Nat × Int) :=
  [n0, n0 + 1].flatMap fun n =>
    let (a, b) := scaled N ((k : Int) - n)
    let fl := a / (b * D)
    [(fl, n), (fl + 1, n)]

/-- A candidate `(s, n)` is admissible for the number `x` when `s` has exactly `k`
digits and `s × 10^(n-k)` rounds to `x`. -/
def candidateOk (x : Nat) (k : Nat) (c : Nat × Int) : Bool :=
  let (a, b) := scaled c.1 (c.2 - k)
  10 ^ (k - 1) ≤ c.1 && c.1 < 10 ^ k && roundMV a b == x % 2 ^ 63

/-- The distance from `s × 10^(n-k)` to `N / D`, as a numerator and a denominator. -/
def candidateDist (N D : Nat) (k : Nat) (c : Nat × Int) : Nat × Nat :=
  let (a, b) := scaled c.1 (c.2 - k)
  ((a * D) - (N * b) + ((N * b) - (a * D)), b * D)

/-- Whether the first candidate is at least as close to `N / D` as the second. -/
def closer (N D k : Nat) (c c2 : Nat × Int) : Bool :=
  let (p, q) := candidateDist N D k c
  let (p2, q2) := candidateDist N D k c2
  p * q2 ≤ p2 * q

/-- The candidate closest to `N / D`. -/
def closest (N D k : Nat) : List (Nat × Int) → Option (Nat × Int)
  | [] => none
  | c :: cs =>
    match closest N D k cs with
    | none => some c
    | some c2 => if closer N D k c c2 then some c else some c2

/-- The digits `s` and the exponent `n` of `Number::toString`: the least number of
digits `k` for which an admissible candidate exists, and for that `k` the candidate
closest to the number.  The search runs over `k, k + 1, ..., k + fuel`; seventeen digits
always suffice. -/
def shortestDigits (x N D : Nat) (n0 : Int) : Nat → Nat → Nat × Int
  | 0, k => ((closest N D k (digitCandidates N D n0 k)).getD (0, 0))
  | fuel + 1, k =>
    match closest N D k ((digitCandidates N D n0 k).filter (candidateOk x k)) with
    | some c => c
    | none => shortestDigits x N D n0 fuel (k + 1)

/-- The layout of `Number::toString` for the digits `ds` and the exponent `n`: plain
digits, a decimal point inside, a leading `0.`, or the exponential form. -/
def formatDigits (ds : List Char) (n : Int) : String :=
  let k := ds.length
  if (k : Int) ≤ n && n ≤ 21 then String.mk (ds ++ List.replicate (n.toNat - k) '0')
  else if 0 < n && n ≤ 21 then String.mk (ds.take n.toNat ++ '.' :: ds.drop n.toNat)
  else if -6 < n && n ≤ 0 then String.mk ('0' :: '.' :: List.replicate (-n).toNat '0' ++ ds)
  else
    let e := n - 1
    let ex := (if e < 0 then '-' else '+') :: Nat.toDigits 10 e.natAbs
    if k == 1 then String.mk (ds ++ 'e' :: ex)
    else String.mk (ds.take 1 ++ '.' :: ds.drop 1 ++ 'e' :: ex)

/-- The operation `Number::toString` in radix 10. -/
def numberToString (x : Nat) : String :=
  if isNaN x then "NaN"
  else if isZero x then "0"
  else
    let sign := if isNegative x then "-" else ""
    if expField x == 2047 then sign ++ "Infinity"
    else
      let (N, D) := finiteValue x
      let (s, n) := shortestDigits x N D (decimalExponent N D) 16 1
      sign ++ formatDigits (Nat.toDigits 10 s) n

/-! ## Operators on values -/

/-- The own property `key` of a plain object with the given properties. -/
def lookupProp (key : String) : List (String × JSValue) → Option JSValue
  | [] => none
  | (k, v) :: rest => if k = key then some v else lookupProp key rest

/-- The string of a plain object, for `ToPrimitive` and `ToString`.  The inherited
`valueOf` returns the object itself, so the conversion rests on `toString`: the inherited
one gives `[object Object]`; an own property `toString` hides it and, being data and not
a function, leaves no method to call, which is a `TypeError`. -/
def objectString (props : List (String × JSValue)) : Except JSError String :=
  if (lookupProp "toString" props).isSome then
    Except.error ⟨"TypeError", "Cannot convert object to primitive value"⟩
  else Except.ok "[object Object]"

mutual
/-- The operation `ToString` on a value.  An array is converted by
`Array.prototype.join`, a plain object by `objectString`. -/
def toStringValue : JSValue → Except JSError String
  | JSValue.undefined => Except.ok "undefined"
  | JSValue.null => Except.ok "null"
  | JSValue.bool b => Except.ok (if b then "true" else "false")
  | JSValue.num x => Except.ok (numberToString x)
  | JSValue.str s => Except.ok s
  | JSValue.arr items => joinItems items
  | JSValue.obj props => objectString props
/-- The method `Array.prototype.join` with the default separator: `undefined` and
`null` elements give the empty string, the others their `ToString`, from left to
right. -/
def joinItems : List JSValue → Except JSError String
  | [] => Except.ok ""
  | [x] => itemString x
  | x :: y :: rest =>
    match itemString x with
    | Except.error e => Except.error e
    | Except.ok a =>
      match joinItems (y :: rest) with
      | Except.error e => Except.error e
      | Except.ok b => Except.ok (a ++ "," ++ b)
/-- The string of one array element inside `join`. -/
def itemString : JSValue → Except JSError String
  | JSValue.undefined => Except.ok ""
  | JSValue.null => Except.ok ""
  | v => toStringValue v
end

/-- The operation `ToPrimitive` without a hint: a primitive is itself; an array or a
plain object has a `valueOf` that returns the object, so its `toString` is used. -/
def toPrimitive : JSValue → Except JSError JSValue
  | JSValue.arr items => (joinItems items).map JSValue.str
  | JSValue.obj props => (objectString props).map JSValue.str
  | v => Except.ok v

/-- The operation `IsLooselyEqual` on primitives.  Booleans are first converted to
numbers; `undefined` and `null` equal each other and nothing else; a number and a string
are compared as numbers. -/
def looseEqPrimitive (x y : JSValue) : Bool :=
  let toNum : JSValue → JSValue := fun v =>
    match v with
    | JSValue.bool b => JSValue.num (if b then bitsOne else 0)
    | w => w
  match toNum x, toNum y with
  | JSValue.undefined, JSValue.undefined => true
  | JSValue.undefined, JSValue.null => true
  | JSValue.null, JSValue.undefined => true
  | JSValue.null, JSValue.null => true
  | JSValue.num a, JSValue.num b => numberEqual a b
  | JSValue.str a, JSValue.str b => a == b
  | JSValue.num a, JSValue.str b => numberEqual a (stringToNumber b)
  | JSValue.str a, JSValue.num b => numberEqual (stringToNumber a) b
  | _, _ => false

/-- Whether a value is an object (an array or a plain object). -/
def isObject : JSValue → Bool
  | JSValue.arr _ => true
  | JSValue.obj _ => true
  | _ => false

/-- The operator `x == y` where `y` is a primitive, as in both comparisons of the
handler.  An object on the left is converted by `ToPrimitive`, which may throw, unless
the right side is `undefined` or `null`, to which no object is equal. -/
def looseEq (x y : JSValue) : Except JSError Bool :=
  if isObject x then
    match y with
    | JSValue.undefined => Except.ok false
    | JSValue.null => Except.ok false
    | _ => (toPrimitive x).map (fun p => looseEqPrimitive p y)
  else Except.ok (looseEqPrimitive x y)

/-- The condition `spam == "true" || spam == true` of line 155: the second comparison is
made only when the first is false. -/
def spamCondition (spam : JSValue) : Except JSError Bool :=
  match looseEq spam (JSValue.str "true") with
  | Except.error e => Except.error e
  | Except.ok true => Except.ok true
  | Except.ok false => looseEq spam (JSValue.bool true)

/-- The method `String.prototype.startsWith`. -/
def startsWith (s p : String) : Bool := p.toList.isPrefixOf s.toList

/-- The member access `v.spam`.  On `undefined` and `null` it throws a `TypeError`; on
a plain object it is the own property, or `undefined` without one; booleans, numbers,
strings and arrays have no property of that name, neither their own nor inherited. -/
def getSpam : JSValue → Except JSError JSValue
  | JSValue.undefined =>
    Except.error ⟨"TypeError", "Cannot read properties of undefined (reading \x27spam\x27)"⟩
  | JSValue.null =>
    Except.error ⟨"TypeError", "Cannot read properties of null (reading \x27spam\x27)"⟩
  | JSValue.obj props => Except.ok ((lookupProp "spam" props).getD JSValue.undefined)
  | _ => Except.ok JSValue.undefined

/-! ## Effects -/

/-- The bytes of an uploaded file. -/
abbrev Buffer := List Nat

/-- The request sent by `openai.chat.completions.create`: one user message.  The
temperature `0.7` is kept in tenths. -/
structure ChatRequest where
  model : String
  content : String
  max_tokens : Nat
  temperatureTenths : Nat
deriving DecidableEq, Repr

/-- The external calls and the console output of the route, in the order they happen. -/
inductive Event where
  | pdfParse (buffer : Buffer)
  | mammothExtractRawText (buffer : Buffer)
  | createWorker
  | loadLanguage (lang : String)
  | workerInit (lang : String)
  | recognize (buffer : Buffer)
  | terminate
  | chatCompletion (request : ChatRequest)
  | consoleLog (args : List String)
  | consoleError (error : JSError)
deriving DecidableEq, Repr

/-- An awaited computation that has run: the events it caused and its outcome, a value
or the failure that abandoned it. -/
structure Run (α : Type) where
  trace : List Event
  result : Except Failure α

namespace Run

/-- A computation that returns at once. -/
def ret {α : Type} (a : α) : Run α := ⟨[], Except.ok a⟩

/-- The statement `throw e`. -/
def throw {α : Type} (e : JSError) : Run α := ⟨[], Except.error (Failure.thrown e)⟩

/-- Sequencing: the second computation runs only when the first was not abandoned. -/
def andThen {α β : Type} (x : Run α) (f : α → Run β) : Run β :=
  match x.result with
  | Except.error e => ⟨x.trace, Except.error e⟩
  | Except.ok a => ⟨x.trace ++ (f a).trace, (f a).result⟩

/-- An awaited external call whose errors are thrown to the awaiting code: the event is
recorded, the outcome is the callee's. -/
def call {α : Type} (ev : Event) (outcome : Except JSError α) : Run α :=
  ⟨[ev], outcome.mapError Failure.thrown⟩

/-- An awaited call to the `tesseract.js` worker: the event is recorded, the outcome is
the callee's, which may be an uncaught exception. -/
def callWorker {α : Type} (ev : Event) (outcome : Except Failure α) : Run α := ⟨[ev], outcome⟩

/-- A pure step that may throw. -/
def lift {α : Type} (outcome : Except JSError α) : Run α :=
  ⟨[], outcome.mapError Failure.thrown⟩

/-- The statement `try { body } catch (error) { handler }`: the handler runs on an
exception thrown inside the body; an uncaught exception has ended the process, and the
handler does not run. -/
def tryCatch {α : Type} (body : Run α) (handler : JSError → Run α) : Run α :=
  match body.result with
  | Except.ok a => ⟨body.trace, Except.ok a⟩
  | Except.error (Failure.thrown e) => ⟨body.trace ++ (handler e).trace, (handler e).result⟩
  | Except.error (Failure.uncaught e) => ⟨body.trace, Except.error (Failure.uncaught e)⟩

end Run

instance : Monad Run where
  pure := Run.ret
  bind := Run.andThen

/-! ## The environment: libraries and services -/

/-- The behaviour of everything the route calls outside `server.js`.
* `pdf buffer` is `(await pdf(buffer)).text`;
* `mammothExtractRawText buffer` is `(await mammoth.extractRawText({ buffer })).value`;
* `createWorker`, `loadLanguage`, `workerInit`, `recognize`, `terminate` are the
  `tesseract.js` worker calls, `recognize buffer` being
  `(await worker.recognize(buffer)).data.text`.  The worker is made by `createWorker()`
  with no `errorHandler` (line 44): when the worker rejects a job, the library rejects
  the promise of the call and also throws the error from its message callback, where
  nothing catches it, so that the outcome of the call is `Failure.uncaught`; an error
  raised by the call itself is `Failure.thrown`;
* `chatCompletionsCreate request` is the list of `choices[i].message.content` of
  `await openai.chat.completions.create(request)`, where `none` is a `null` content;
* `jsonParse text` is `JSON.parse(text)`.
Each of them may throw. -/
structure Env where
  pdf : Buffer → Except JSError String
  mammothExtractRawText : Buffer → Except JSError String
  createWorker : Except Failure Unit
  loadLanguage : String → Except Failure Unit
  workerInit : String → Except Failure Unit
  recognize : Buffer → Except Failure String
  terminate : Except Failure Unit
  chatCompletionsCreate : ChatRequest → Except JSError (List (Option String))
  jsonParse : String → Except JSError JSValue

/-! ## Requests and responses -/

/-- The field `req.file` set by `upload.single("resume")`. -/
structure UploadedFile where
  mimetype : String
  buffer : Buffer
deriving DecidableEq, Repr

/-- The request as the handler sees it: `req.file` is absent when no file came under
the field `resume`. -/
structure Request where
  file : Option UploadedFile
deriving DecidableEq, Repr

/-- The response: the status code and the value given to `res.json`.  The handler sends
a response exactly when its run ends with a result. -/
structure Response where
  status : Nat
  body : JSValue

/-! ## Helper functions (`server.js`, lines 33-50) -/

/-- The function `extractTextFromPDF`. -/
def extractTextFromPDF (env : Env) (buffer : Buffer) : Run String := do
  let text ← Run.call (Event.pdfParse buffer) (env.pdf buffer)
  return text

/-- The function `extractTextFromDOCX`. -/
def extractTextFromDOCX (env : Env) (buffer : Buffer) : Run String := do
  let value ← Run.call (Event.mammothExtractRawText buffer) (env.mammothExtractRawText buffer)
  return value

/-- The function `extractTextFromImage`. -/
def extractTextFromImage (env : Env) (buffer : Buffer) : Run String := do
  Run.callWorker Event.createWorker env.createWorker
  Run.callWorker (Event.loadLanguage "eng") (env.loadLanguage "eng")
  Run.callWorker (Event.workerInit "eng") (env.workerInit "eng")
  let text ← Run.callWorker (Event.recognize buffer) (env.recognize buffer)
  Run.callWorker Event.terminate env.terminate
  return text

/-! ## The completion call (`server.js`, lines 53-86) -/

/-- The template literal of `callOpenAIAPI` up to `${resumeText}`. -/
def promptHead : String :=
  "\n"
  ++ "    Parse this resume into strict JSON with:\n"
  ++ "    - personal_info (name, email, phone, linkedin,languages)\n"
  ++ "    - education (degree, university, year)\n"
  ++ "    - work_experience (job_title, company, duration, responsibilities[])\n"
  ++ "    - skills (technical[], soft[])\n"
  ++ "    - certifications [\x7b name, issuer, year \x7d]\n"
  ++ "    - projects [\x7b title,technology,time_period \x7d]\n"
  ++ "    \n"
  ++ "    Automatic spam detection (missing fields, gibberish, fake formatting, all fields which are present are check with proper valid validation and placeholder patterns ) on the basis of it check it\x27s spam or not.\n"
  ++ "    Also check that year start and year end is a valid year and the email address so be valid email address and also the number is in correct format according to the country/address they live.\n"
  ++ "    Return ONLY valid JSON Object without markdown and not give any other information and no improvement text and no parsed line only JSON object and not any single quotes , double quotes and back-tick at the end or starting of object but JSON keys are always in double quotes.\n"
  ++ "    And if the resume is spam then mark it spam:true otherwise false and give it inside object.\n"
  ++ "    Resume Text: "

/-- The template literal of `callOpenAIAPI` after `${resumeText}`. -/
def promptTail : String := "\n  "

/-- The prompt built for a resume text. -/
def buildPrompt (resumeText : String) : String := promptHead ++ resumeText ++ promptTail

/-- The request object given to `openai.chat.completions.create`. -/
def chatRequest (resumeText : String) : ChatRequest :=
  { model := "gpt-4o", content := buildPrompt resumeText, max_tokens := 1500,
    temperatureTenths := 7 }

/-- The expression `completion.choices[0].message.content`: reading `message` of a
missing first choice throws. -/
def firstChoiceContent : List (Option String) → Except JSError (Option String)
  | [] =>
    Except.error
      ⟨"TypeError", "Cannot read properties of undefined (reading \x27message\x27)"⟩
  | content :: _ => Except.ok content

/-- The string `JSON.parse` works on: `ToString` of its argument, `null` for a `null`
content. -/
def contentText : Option String → String
  | some text => text
  | none => "null"

/-- The function `callOpenAIAPI`: one completion request, then `JSON.parse` of the
content of the first choice. -/
def callOpenAIAPI (env : Env) (resumeText : String) : Run JSValue := do
  let choices ← Run.call (Event.chatCompletion (chatRequest resumeText))
    (env.chatCompletionsCreate (chatRequest resumeText))
  let response ← Run.lift (firstChoiceContent choices)
  Run.call (Event.consoleLog [if response.isSome then "string" else "object", "And text ",
    contentText response]) (Except.ok ())
  Run.lift (env.jsonParse (contentText response))

/-! ## The schema (`server.js`, lines 113-151) -/

/-- The `Joi` schemas the handler builds. -/
inductive JoiSchema where
  | any
  | string
  | email
  | boolean
  | array (items : JoiSchema)
  | object (keys : List (String × JoiSchema))
  | required (inner : JoiSchema)

/-- The value of `schema` in the handler. -/
def schema : JoiSchema :=
  JoiSchema.object [
    ("personal_info", JoiSchema.required (JoiSchema.object [
      ("name", JoiSchema.string), ("email", JoiSchema.email), ("phone", JoiSchema.string),
      ("linkedin", JoiSchema.string), ("languages", JoiSchema.string)])),
    ("education", JoiSchema.array (JoiSchema.object [
      ("degree", JoiSchema.string), ("university", JoiSchema.string),
      ("year", JoiSchema.string)])),
    ("work_experience", JoiSchema.array (JoiSchema.object [
      ("job_title", JoiSchema.string), ("company", JoiSchema.string),
      ("duration", JoiSchema.string),
      ("responsibilities", JoiSchema.array JoiSchema.string)])),
    ("skills", JoiSchema.object [
      ("technical", JoiSchema.array JoiSchema.string),
      ("soft", JoiSchema.array JoiSchema.string)]),
    ("certifications", JoiSchema.array (JoiSchema.object [
      ("name", JoiSchema.string), ("issuer", JoiSchema.string), ("year", JoiSchema.any)])),
    ("projects", JoiSchema.array (JoiSchema.object [
      ("title", JoiSchema.string), ("technology", JoiSchema.string),
      ("time_period", JoiSchema.any)])),
    ("spam", JoiSchema.boolean)]

/-- The keys an object schema marks `required()`. -/
def requiredKeys : JoiSchema → List String
  | JoiSchema.object keys =>
    (keys.filter (fun kv => match kv.2 with | JoiSchema.required _ => true | _ => false)).map
      (fun kv => kv.1)
  | _ => []

/-- A value lacks a key the schema requires: one way of not conforming to it. -/
def missesRequiredKey (sch : JoiSchema) : JSValue → Bool
  | JSValue.obj props => (requiredKeys sch).any (fun k => (lookupProp k props).isNone)
  | _ => false

/-! ## The route handler (`server.js`, lines 89-164) -/

/-- The body sent when the resume is flagged as spam. -/
def spamBody : JSValue :=
  JSValue.obj [("spanResume",
    JSValue.str "⚠️ This resume may be spam or incomplete or Valid resume required")]

/-- The body sent from the `catch` block. -/
def errorBody : JSValue :=
  JSValue.obj [("error", JSValue.str "Insert proper resume, Valid resume required")]

/-- The text extraction chosen by the media type (lines 93-107). -/
def extractText (env : Env) (file : UploadedFile) : Run String :=
  let fileType := file.mimetype
  if fileType = "application/pdf" then extractTextFromPDF env file.buffer
  else if fileType = "application/vnd.openxmlformats-officedocument.wordprocessingml.document"
  then extractTextFromDOCX env file.buffer
  else if startsWith fileType "image/" then extractTextFromImage env file.buffer
  else Run.throw ⟨"Error", "Unsupported file type."⟩

/-- The `try` block of the handler.  The schema is built and left unused: the two lines
that would apply it are commented out in the source. -/
def parseTry (env : Env) (req : Request) : Run Response := do
  let file ← (match req.file with
    | none => Run.throw ⟨"Error", "No file uploaded."⟩
    | some f => pure f : Run UploadedFile)
  let text ← extractText env file
  let parsedResume ← callOpenAIAPI env text
  let _schema := schema
  let spam ← Run.lift (getSpam parsedResume)
  let flagged ← Run.lift (spamCondition spam)
  if flagged then
    return ⟨200, spamBody⟩
  else
    return ⟨200, parsedResume⟩

/-- The handler of `POST /api/parse`: the `try` block, and the `catch` block that logs
the error and answers with status 500.  A run that ends in `Failure.uncaught` is a
process that exited before any response was sent. -/
def parseHandler (env : Env) (req : Request) : Run Response :=
  Run.tryCatch (parseTry env req) (fun error => do
    Run.call (Event.consoleError error) (Except.ok ())
    return ⟨500, errorBody⟩)

/-! ## Reading a run -/

/-- The three text extractors. -/
inductive Extractor where
  | pdf
  | docx
  | image
deriving DecidableEq, Repr

/-- The extractor whose library an event is a call of, if any. -/
def Event.extractor : Event → Option Extractor
  | Event.pdfParse _ => some Extractor.pdf
  | Event.mammothExtractRawText _ => some Extractor.docx
  | Event.createWorker => some Extractor.image
  | Event.loadLanguage _ => some Extractor.image
  | Event.workerInit _ => some Extractor.image
  | Event.recognize _ => some Extractor.image
  | Event.terminate => some Extractor.image
  | _ => none

/-- Whether an event is a request to the completion service. -/
def Event.isCompletion : Event → Bool
  | Event.chatCompletion _ => true
  | _ => false

/-- The buffer an extractor call is given, for the calls that take one. -/
def Event.buffer : Event → Option Buffer
  | Event.pdfParse b => some b
  | Event.mammothExtractRawText b => some b
  | Event.recognize b => some b
  | _ => none

/-- The causes of failure of a request, with the failure that abandons the `try` block:
no uploaded file, a media type outside the three families, a failure inside an
extractor, an error of the call to the completion service, a completion text that
`JSON.parse` rejects.  A failure inside an extractor is of either kind; the other four
are exceptions thrown inside the `try` block. -/
inductive FailureCause (env : Env) (req : Request) : Failure → Prop where
  | noFile : req.file = none →
      FailureCause env req (Failure.thrown ⟨"Error", "No file uploaded."⟩)
  | mediaType (file : UploadedFile) :
      req.file = some file →
      file.mimetype ≠ "application/pdf" →
      file.mimetype ≠ "application/vnd.openxmlformats-officedocument.wordprocessingml.document" →
      startsWith file.mimetype "image/" = false →
      FailureCause env req (Failure.thrown ⟨"Error", "Unsupported file type."⟩)
  | extractor (file : UploadedFile) (f : Failure) :
      req.file = some file →
      (extractText env file).result = Except.error f →
      FailureCause env req f
  | completion (file : UploadedFile) (text : String) (e : JSError) :
      req.file = some file →
      (extractText env file).result = Except.ok text →
      env.chatCompletionsCreate (chatRequest text) = Except.error e →
      FailureCause env req (Failure.thrown e)
  | parsing (file : UploadedFile) (text : String) (content : Option String)
      (rest : List (Option String)) (e : JSError) :
      req.file = some file →
      (extractText env file).result = Except.ok text →
      env.chatCompletionsCreate (chatRequest text) = Except.ok (content :: rest) →
      env.jsonParse (contentText content) = Except.error e →
      FailureCause env req (Failure.thrown e)

/-! ## The rate limiter (`server.js`, lines 22-27) -/

/-- The options given to `rateLimit`. -/
structure RateLimitOptions where
  windowMs : Nat
  max : Nat
deriving DecidableEq, Repr

/-- The options of `limiter`: `windowMs: 60 * 1000` and `max: 10`. -/
def limiterOptions : RateLimitOptions := { windowMs := 60 * 1000, max := 10 }

/-- The counter of one client address: the hits in its current window and the time, in
milliseconds, at which that window ends. -/
structure Counter where
  hits : Nat
  resetTime : Nat
deriving DecidableEq, Repr

/-- The counters of the limiter, by client address. -/
abbrev Store := String → Option Counter

/-- Modelled from the spec: the middleware that `rateLimit` of the package
`express-rate-limit` returns, whose code is not in the repository.  It is the fixed
window counter keyed by client address of section 4.5: the first request of an address
opens a window of `windowMs` milliseconds, every request of that address inside the
window is counted, and a request is admitted when its count is at most `max`.  The
result is the decision and the new counters. -/
def rateLimit (opts : RateLimitOptions) (store : Store) (now : Nat) (address : String) :
    Bool × Store :=
  let counter : Counter :=
    match store address with
    | some c =>
      if now < c.resetTime then { hits := c.hits + 1, resetTime := c.resetTime }
      else { hits := 1, resetTime := now + opts.windowMs }
    | none => { hits := 1, resetTime := now + opts.windowMs }
  (decide (counter.hits ≤ opts.max), fun a => if a = address then some counter else store a)

/-- The middleware `limiter` mounted on `/api/parse`. -/
def limiter (store : Store) (now : Nat) (address : String) : Bool × Store :=
  rateLimit limiterOptions store now address

/-- A request arriving at `/api/parse`: the client address, the arrival time in
milliseconds, and the request as the upload middleware hands it to the handler. -/
structure Incoming where
  address : String
  time : Nat
  request : Request

/-- What becomes of an arriving request: the limiter rejects it, or the handler runs,
with the run it makes for that request. -/
inductive Outcome where
  | rejected
  | handled (run : Run Response)

/-- The route `/api/parse`: the limiter first (line 27), then the handler (line 89). -/
def serve (env : Env) (store : Store) (r : Incoming) : Outcome × Store :=
  if (limiter store r.time r.address).1 then
    (Outcome.handled (parseHandler env r.request), (limiter store r.time r.address).2)
  else (Outcome.rejected, (limiter store r.time r.address).2)

/-- The outcomes of a sequence of arriving requests, served in order. -/
def serveAll (env : Env) : Store → List Incoming → List Outcome
  | _, [] => []
  | store, r :: rs => (serve env store r).1 :: serveAll env (serve env store r).2 rs

/-- The outcomes, among those of `serveAll`, of the requests of one client address. -/
def outcomesOf (env : Env) (address : String) : Store → List Incoming → List Outcome
  | _, [] => []
  | store, r :: rs =>
    if r.address = address then
      (serve env store r).1 :: outcomesOf env address (serve env store r).2 rs
    else outcomesOf env address (serve env store r).2 rs

/-! ## Stubbed services -/

/-- An environment with stubbed services: every extractor returns `text`, the
completion service answers with the single choice `completion`, and `JSON.parse` gives
`parsed` on that text and throws on any other. -/
def stubEnv (text completion : String) (parsed : Except JSError JSValue) : Env :=
  { pdf := fun _ => Except.ok text
    mammothExtractRawText := fun _ => Except.ok text
    createWorker := Except.ok ()
    loadLanguage := fun _ => Except.ok ()
    workerInit := fun _ => Except.ok ()
    recognize := fun _ => Except.ok text
    terminate := Except.ok ()
    chatCompletionsCreate := fun _ => Except.ok [some completion]
    jsonParse := fun s =>
      if s = completion then parsed
      else Except.error ⟨"SyntaxError", "Unexpected token"⟩ }

/-- An uploaded PDF file. -/
def pdfFile : UploadedFile := { mimetype := "application/pdf", buffer := [37, 80, 68, 70] }

/-- An uploaded PNG image. -/
def pngFile : UploadedFile := { mimetype := "image/png", buffer := [137, 80, 78, 71] }

/-- An uploaded plain text file, which is of no accepted media type. -/
def txtFile : UploadedFile := { mimetype := "text/plain", buffer := [104, 105] }

/-! ## Sample requests and completions -/

/-- A request that carries the PDF file. -/
def pdfRequest : Request := { file := some pdfFile }

/-- The text every stubbed extractor returns. -/
def resumeText : String := "Jane Roe\njane@example.org\nSkills: proofs"

/-- A completion flagged as spam, as a text. -/
def spamText : String := "\x7b\"personal_info\":\x7b\"name\":\"asdf\"\x7d,\"spam\":true\x7d"

/-- A completion flagged as spam, parsed. -/
def spamRecord : List (String × JSValue) :=
  [("personal_info", JSValue.obj [("name", JSValue.str "asdf")]), ("spam", JSValue.bool true)]

/-- A completion that is not flagged and has no `personal_info`, as a text. -/
def plainText : String := "\x7b\"education\":[],\"spam\":false\x7d"

/-- A completion that is not flagged, parsed. -/
def plainRecord : List (String × JSValue) :=
  [("education", JSValue.arr []), ("spam", JSValue.bool false)]

/-- A completion whose `spam` is the string `True`, as a text. -/
def capitalisedText : String :=
  "\x7b\"personal_info\":\x7b\"name\":\"asdf\"\x7d,\"spam\":\"True\"\x7d"

/-- A completion whose `spam` is the string `True`, parsed. -/
def capitalisedRecord : List (String × JSValue) :=
  [("personal_info", JSValue.obj [("name", JSValue.str "asdf")]), ("spam", JSValue.str "True")]

/-- A completion wrapped in prose, which is no JSON text. -/
def proseText : String := "Here is the JSON you asked for: \x7b\"spam\":false\x7d"

/-- The error of `JSON.parse` on the completion wrapped in prose. -/
def proseError : JSError :=
  { name := "SyntaxError", message := "Unexpected token H in JSON at position 0" }

/-- A request that carries the PNG image. -/
def pngRequest : Request := { file := some pngFile }

/-- The error of the worker on an image it cannot read. -/
def readError : JSError := { name := "Error", message := "Error attempting to read image." }

/-- Stubbed services in which the worker rejects the `recognize` job. -/
def unreadableImageEnv : Env :=
  { pdf := fun _ => Except.ok resumeText
    mammothExtractRawText := fun _ => Except.ok resumeText
    createWorker := Except.ok ()
    loadLanguage := fun _ => Except.ok ()
    workerInit := fun _ => Except.ok ()
    recognize := fun _ => Except.error (Failure.uncaught readError)
    terminate := Except.ok ()
    chatCompletionsCreate := fun _ => Except.ok [some spamText]
    jsonParse := fun _ => Except.ok (JSValue.obj spamRecord) }

/-- The limiter before any request. -/
def emptyStore : Store := fun _ => none

/-- A request without a file from the given address at the given time. -/
def arrival (address : String) (time : Nat) : Incoming :=
  { address := address, time := time, request := { file := none } }

/-- Eleven requests of one address within ten seconds, with two requests of another
address in between. -/
def burst : List Incoming :=
  [arrival "203.0.113.7" 0, arrival "203.0.113.7" 1000, arrival "198.51.100.9" 1500,
   arrival "203.0.113.7" 2000, arrival "203.0.113.7" 3000, arrival "203.0.113.7" 4000,
   arrival "203.0.113.7" 5000, arrival "203.0.113.7" 6000, arrival "198.51.100.9" 6500,
   arrival "203.0.113.7" 7000, arrival "203.0.113.7" 8000, arrival "203.0.113.7" 9000,
   arrival "203.0.113.7" 10000]

/-! ## Facts about runs -/

@[simp] theorem Run.bind_eq {α β : Type} (x : Run α) (f : α → Run β) :
    (x >>= f) = Run.andThen x f := rfl

@[simp] theorem Run.pure_eq {α : Type} (a : α) : (pure a : Run α) = Run.ret a := rfl

@[simp] theorem mapError_ok {α : Type} (a : α) :
    (Except.ok a : Except JSError α).mapError Failure.thrown = Except.ok a := rfl

@[simp] theorem mapError_error {α : Type} (e : JSError) :
    (Except.error e : Except JSError α).mapError Failure.thrown =
      Except.error (Failure.thrown e) := rfl

theorem extractTextFromPDF_eq (env : Env) (buffer : Buffer) :
    extractTextFromPDF env buffer =
      ⟨[Event.pdfParse buffer], (env.pdf buffer).mapError Failure.thrown⟩ := by
  simp only [extractTextFromPDF, Run.bind_eq, Run.pure_eq, Run.andThen, Run.call, Run.ret]
  cases env.pdf buffer <;> simp

theorem extractTextFromDOCX_eq (env : Env) (buffer : Buffer) :
    extractTextFromDOCX env buffer =
      ⟨[Event.mammothExtractRawText buffer],
        (env.mammothExtractRawText buffer).mapError Failure.thrown⟩ := by
  simp only [extractTextFromDOCX, Run.bind_eq, Run.pure_eq, Run.andThen, Run.call, Run.ret]
  cases env.mammothExtractRawText buffer <;> simp

theorem extractTextFromImage_events (env : Env) (buffer : Buffer) :
    ∀ ev ∈ (extractTextFromImage env buffer).trace,
      ev.extractor = some Extractor.image ∧ (ev.buffer = none ∨ ev.buffer = some buffer) := by
  simp only [extractTextFromImage, Run.bind_eq, Run.pure_eq, Run.andThen, Run.callWorker,
    Run.ret]
  cases env.createWorker <;> cases env.loadLanguage "eng" <;> cases env.workerInit "eng" <;>
    cases env.recognize buffer <;> cases env.terminate <;>
    simp [Event.extractor, Event.buffer]

theorem extractText_events (env : Env) (file : UploadedFile) :
    ∀ ev ∈ (extractText env file).trace,
      ev.extractor.isSome = true ∧ ev.isCompletion = false := by
  intro ev hev
  unfold extractText at hev
  simp only [] at hev
  split at hev
  · rw [extractTextFromPDF_eq] at hev
    simp at hev; subst hev; simp [Event.extractor, Event.isCompletion]
  · split at hev
    · rw [extractTextFromDOCX_eq] at hev
      simp at hev; subst hev; simp [Event.extractor, Event.isCompletion]
    · split at hev
      · have h := (extractTextFromImage_events env file.buffer ev hev).1
        cases ev <;> simp_all [Event.extractor, Event.isCompletion]
      · simp [Run.throw] at hev

theorem callOpenAIAPI_ok (env : Env) (text : String) (content : Option String)
    (rest : List (Option String))
    (hc : env.chatCompletionsCreate (chatRequest text) = Except.ok (content :: rest)) :
    callOpenAIAPI env text =
      ⟨[Event.chatCompletion (chatRequest text),
        Event.consoleLog [if content.isSome then "string" else "object", "And text ",
          contentText content]],
       (env.jsonParse (contentText content)).mapError Failure.thrown⟩ := by
  simp [callOpenAIAPI, Run.andThen, Run.call, Run.lift, hc, firstChoiceContent]

theorem callOpenAIAPI_error (env : Env) (text : String) (e : JSError)
    (hc : env.chatCompletionsCreate (chatRequest text) = Except.error e) :
    callOpenAIAPI env text =
      ⟨[Event.chatCompletion (chatRequest text)], Except.error (Failure.thrown e)⟩ := by
  simp [callOpenAIAPI, Run.andThen, Run.call, hc]

/-- The completion call never ends the process: it returns or throws to its caller. -/
theorem callOpenAIAPI_not_uncaught (env : Env) (text : String) (e : JSError) :
    (callOpenAIAPI env text).result ≠ Except.error (Failure.uncaught e) := by
  cases hc : env.chatCompletionsCreate (chatRequest text) with
  | error e2 => rw [callOpenAIAPI_error env text e2 hc]; simp
  | ok choices =>
    cases choices with
    | nil => simp [callOpenAIAPI, Run.andThen, Run.call, Run.lift, hc, firstChoiceContent]
    | cons content rest =>
      rw [callOpenAIAPI_ok env text content rest hc]
      cases env.jsonParse (contentText content) <;> simp

theorem callOpenAIAPI_events (env : Env) (text : String) :
    ∀ ev ∈ (callOpenAIAPI env text).trace, ev.extractor = none := by
  intro ev hev
  cases hc : env.chatCompletionsCreate (chatRequest text) with
  | error e =>
    rw [callOpenAIAPI_error env text e hc] at hev
    simp at hev
    subst hev
    rfl
  | ok choices =>
    cases choices with
    | nil =>
      simp [callOpenAIAPI, Run.andThen, Run.call, Run.lift, hc, firstChoiceContent] at hev
      subst hev
      rfl
    | cons content rest =>
      rw [callOpenAIAPI_ok env text content rest hc] at hev
      simp at hev
      rcases hev with h | h <;> subst h <;> rfl

/-- The `try` block when there is no file. -/
theorem parseTry_no_file (env : Env) (req : Request) (h : req.file = none) :
    parseTry env req =
      ⟨[], Except.error (Failure.thrown ⟨"Error", "No file uploaded."⟩)⟩ := by
  simp [parseTry, h, Run.andThen, Run.throw]

/-- The `try` block when the extraction is abandoned. -/
theorem parseTry_extract_error (env : Env) (req : Request) (file : UploadedFile) (f : Failure)
    (hfile : req.file = some file) (hext : (extractText env file).result = Except.error f) :
    parseTry env req = ⟨(extractText env file).trace, Except.error f⟩ := by
  simp [parseTry, hfile, Run.andThen, Run.ret, hext]

/-- The `try` block when the extraction returns a text: the completion call follows. -/
theorem parseTry_extract_ok (env : Env) (req : Request) (file : UploadedFile) (text : String)
    (hfile : req.file = some file) (hext : (extractText env file).result = Except.ok text) :
    (parseTry env req).trace = (extractText env file).trace ++ (callOpenAIAPI env text).trace ∧
    (parseTry env req).result =
      match (callOpenAIAPI env text).result with
      | Except.error f => Except.error f
      | Except.ok v =>
        match getSpam v with
        | Except.error e => Except.error (Failure.thrown e)
        | Except.ok spam =>
          match spamCondition spam with
          | Except.error e => Except.error (Failure.thrown e)
          | Except.ok flagged =>
            if flagged then Except.ok ⟨200, spamBody⟩ else Except.ok ⟨200, v⟩ := by
  simp only [parseTry, hfile, Run.bind_eq, Run.pure_eq, Run.andThen, Run.ret, hext, Run.lift,
    List.append_nil, List.nil_append]
  cases (callOpenAIAPI env text).result with
  | error e => simp
  | ok v =>
    cases hs : getSpam v with
    | error e => simp [hs]
    | ok spam =>
      cases hf : spamCondition spam with
      | error e => simp [hs, hf]
      | ok flagged => cases flagged <;> simp [hs, hf]

/-- The `try` block when the completion text is parsed to `v`. -/
theorem parseTry_reach (env : Env) (req : Request) (file : UploadedFile) (text : String)
    (content : Option String) (rest : List (Option String)) (v : JSValue)
    (hfile : req.file = some file)
    (hext : (extractText env file).result = Except.ok text)
    (hc : env.chatCompletionsCreate (chatRequest text) = Except.ok (content :: rest))
    (hparse : env.jsonParse (contentText content) = Except.ok v) :
    (parseTry env req).result =
       match getSpam v with
       | Except.error e => Except.error (Failure.thrown e)
       | Except.ok spam =>
         match spamCondition spam with
         | Except.error e => Except.error (Failure.thrown e)
         | Except.ok flagged =>
           if flagged then Except.ok ⟨200, spamBody⟩ else Except.ok ⟨200, v⟩ := by
  rw [(parseTry_extract_ok env req file text hfile hext).2,
    callOpenAIAPI_ok env text content rest hc]
  simp only [hparse, mapError_ok]

/-- The handler answers what the `try` block answers. -/
theorem parseHandler_of_ok (env : Env) (req : Request) (r : Response)
    (h : (parseTry env req).result = Except.ok r) :
    parseHandler env req = ⟨(parseTry env req).trace, Except.ok r⟩ := by
  simp [parseHandler, Run.tryCatch, h]

/-- The handler logs the error thrown in the `try` block and answers with status 500. -/
theorem parseHandler_of_error (env : Env) (req : Request) (e : JSError)
    (h : (parseTry env req).result = Except.error (Failure.thrown e)) :
    parseHandler env req =
      ⟨(parseTry env req).trace ++ [Event.consoleError e], Except.ok ⟨500, errorBody⟩⟩ := by
  simp [parseHandler, Run.tryCatch, h, Run.andThen, Run.call, Run.ret]

/-- The handler does nothing more after an uncaught exception: no log, no response. -/
theorem parseHandler_of_uncaught (env : Env) (req : Request) (e : JSError)
    (h : (parseTry env req).result = Except.error (Failure.uncaught e)) :
    parseHandler env req = ⟨(parseTry env req).trace, Except.error (Failure.uncaught e)⟩ := by
  simp [parseHandler, Run.tryCatch, h]

/-- The media type is outside the three families: the dispatch throws at once. -/
theorem extractText_unsupported (env : Env) (file : UploadedFile)
    (hpdf : file.mimetype ≠ "application/pdf")
    (hdocx : file.mimetype ≠
      "application/vnd.openxmlformats-officedocument.wordprocessingml.document")
    (himg : startsWith file.mimetype "image/" = false) :
    extractText env file =
      ⟨[], Except.error (Failure.thrown ⟨"Error", "Unsupported file type."⟩)⟩ := by
  simp [extractText, hpdf, hdocx, himg, Run.throw]

/-- Every cause of failure abandons the `try` block with the failure of that cause. -/
theorem parseTry_of_failureCause (env : Env) (req : Request) (f : Failure)
    (h : FailureCause env req f) : (parseTry env req).result = Except.error f := by
  cases h with
  | noFile h => rw [parseTry_no_file env req h]
  | mediaType file hfile hpdf hdocx himg =>
    rw [parseTry_extract_error env req file _ hfile
      (by rw [extractText_unsupported env file hpdf hdocx himg])]
  | extractor file f hfile hext => rw [parseTry_extract_error env req file f hfile hext]
  | completion file text e hfile hext hc =>
    rw [(parseTry_extract_ok env req file text hfile hext).2, callOpenAIAPI_error env text e hc]
  | parsing file text content rest e hfile hext hc hparse =>
    rw [(parseTry_extract_ok env req file text hfile hext).2,
      callOpenAIAPI_ok env text content rest hc]
    simp only [hparse, mapError_error]

/-- A failure thrown inside the `try` block, whatever its cause, is answered with status
500 and the fixed error body. -/
theorem thrown_failure_gives_generic_error (env : Env) (req : Request) (e : JSError)
    (h : FailureCause env req (Failure.thrown e)) :
    (parseHandler env req).result = Except.ok ⟨500, errorBody⟩ := by
  rw [parseHandler_of_error env req e (parseTry_of_failureCause env req _ h)]

/-- A failure that is an uncaught exception is answered with nothing: the run of the
handler ends with that exception. -/
theorem uncaught_failure_gives_no_response (env : Env) (req : Request) (e : JSError)
    (h : FailureCause env req (Failure.uncaught e)) :
    (parseHandler env req).result = Except.error (Failure.uncaught e) := by
  rw [parseHandler_of_uncaught env req e (parseTry_of_failureCause env req _ h)]

/-! ## The branch on `spam` -/

theorem getSpam_obj (props : List (String × JSValue)) :
    getSpam (JSValue.obj props) =
      Except.ok ((lookupProp "spam" props).getD JSValue.undefined) := rfl

theorem spamCondition_bool_true :
    spamCondition (JSValue.bool true) = Except.ok true := by rfl

theorem spamCondition_str_true :
    spamCondition (JSValue.str "true") = Except.ok true := by rfl

theorem spamCondition_bool_false :
    spamCondition (JSValue.bool false) = Except.ok false := by rfl

theorem spamCondition_undefined :
    spamCondition JSValue.undefined = Except.ok false := by rfl

theorem spamCondition_str_True :
    spamCondition (JSValue.str "True") = Except.ok false := by rfl

theorem spamCondition_str_TRUE :
    spamCondition (JSValue.str "TRUE") = Except.ok false := by rfl

/-! ## The claims -/

/-- C1: when a file is uploaded, its extraction returns a text (so that its media type
is a supported one), and the completion text parses to an object whose `spam` is the
boolean `true` or the string `"true"`, the handler answers with status 200 and the
one-field body `{spanResume: "⚠️ This resume may be spam or incomplete or Valid resume
required"}`, which holds no field of the parsed record. -/
theorem spam_flag_gives_warning (env : Env) (req : Request) (file : UploadedFile)
    (text completionText : String) (rest : List (Option String))
    (props : List (String × JSValue))
    (hfile : req.file = some file)
    (hext : (extractText env file).result = Except.ok text)
    (hc : env.chatCompletionsCreate (chatRequest text) = Except.ok (some completionText :: rest))
    (hparse : env.jsonParse completionText = Except.ok (JSValue.obj props))
    (hspam : lookupProp "spam" props = some (JSValue.bool true) ∨
      lookupProp "spam" props = some (JSValue.str "true")) :
    (parseHandler env req).result =
      Except.ok ⟨200, JSValue.obj [("spanResume",
        JSValue.str "⚠️ This resume may be spam or incomplete or Valid resume required")]⟩ := by
  have h := parseTry_reach env req file text (some completionText) rest (JSValue.obj props)
    hfile hext hc hparse
  rw [getSpam_obj] at h
  have h2 : (parseTry env req).result = Except.ok ⟨200, spamBody⟩ := by
    rcases hspam with hs | hs
    · rw [h, hs]; simp only [Option.getD_some, spamCondition_bool_true, if_true]
    · rw [h, hs]; simp only [Option.getD_some, spamCondition_str_true, if_true]
  rw [parseHandler_of_ok env req _ h2]
  rfl

/-- C2: when a file is uploaded, its extraction returns a text, and the completion text
parses to an object whose `spam` is `false` or absent, the handler answers with status
200 and the parsed object itself as the body.  Nothing is assumed of the object beyond
its `spam` field: the schema of the handler plays no part. -/
theorem non_spam_record_passes_through (env : Env) (req : Request) (file : UploadedFile)
    (text completionText : String) (rest : List (Option String))
    (props : List (String × JSValue))
    (hfile : req.file = some file)
    (hext : (extractText env file).result = Except.ok text)
    (hc : env.chatCompletionsCreate (chatRequest text) = Except.ok (some completionText :: rest))
    (hparse : env.jsonParse completionText = Except.ok (JSValue.obj props))
    (hspam : lookupProp "spam" props = some (JSValue.bool false) ∨
      lookupProp "spam" props = none) :
    (parseHandler env req).result = Except.ok ⟨200, JSValue.obj props⟩ := by
  have h := parseTry_reach env req file text (some completionText) rest (JSValue.obj props)
    hfile hext hc hparse
  rw [getSpam_obj] at h
  have h2 : (parseTry env req).result = Except.ok ⟨200, JSValue.obj props⟩ := by
    rcases hspam with hs | hs
    · rw [h, hs]; simp [spamCondition_bool_false]
    · rw [h, hs]; simp [spamCondition_undefined]
  rw [parseHandler_of_ok env req _ h2]

/-- C3: a request without an uploaded file is answered with status 500 and the body
`{error: "Insert proper resume, Valid resume required"}`; the only event of the run is
the logging of the error, so no extractor and no completion request is made. -/
theorem no_file_gives_generic_error (env : Env) (req : Request) (hfile : req.file = none) :
    (parseHandler env req).result =
      Except.ok ⟨500, JSValue.obj [("error",
        JSValue.str "Insert proper resume, Valid resume required")]⟩ ∧
    (parseHandler env req).trace = [Event.consoleError ⟨"Error", "No file uploaded."⟩] ∧
    ∀ ev ∈ (parseHandler env req).trace, ev.extractor = none ∧ ev.isCompletion = false := by
  have h := parseHandler_of_error env req _
    (by rw [parseTry_no_file env req hfile] : (parseTry env req).result = Except.error _)
  rw [parseTry_no_file env req hfile] at h
  rw [h]
  refine ⟨rfl, rfl, ?_⟩
  intro ev hev
  simp at hev
  subst hev
  exact ⟨rfl, rfl⟩

/-- C4: an uploaded file whose media type is not `application/pdf`, is not the
Word-processing XML type and does not start with `image/` is answered with status 500
and the generic error body; the only event of the run is the logging of the error, so
no extractor and no completion request is made. -/
theorem unsupported_type_gives_generic_error (env : Env) (req : Request)
    (file : UploadedFile) (hfile : req.file = some file)
    (hpdf : file.mimetype ≠ "application/pdf")
    (hdocx : file.mimetype ≠
      "application/vnd.openxmlformats-officedocument.wordprocessingml.document")
    (himg : startsWith file.mimetype "image/" = false) :
    (parseHandler env req).result =
      Except.ok ⟨500, JSValue.obj [("error",
        JSValue.str "Insert proper resume, Valid resume required")]⟩ ∧
    (parseHandler env req).trace = [Event.consoleError ⟨"Error", "Unsupported file type."⟩] ∧
    ∀ ev ∈ (parseHandler env req).trace, ev.extractor = none ∧ ev.isCompletion = false := by
  have hx := extractText_unsupported env file hpdf hdocx himg
  have ht := parseTry_extract_error env req file
    (Failure.thrown ⟨"Error", "Unsupported file type."⟩) hfile (by rw [hx])
  have h := parseHandler_of_error env req ⟨"Error", "Unsupported file type."⟩ (by rw [ht])
  rw [ht, hx] at h
  rw [h]
  refine ⟨rfl, rfl, ?_⟩
  intro ev hev
  simp at hev
  subst hev
  exact ⟨rfl, rfl⟩

/-- C5: when the completion text is rejected by `JSON.parse`, `callOpenAIAPI` throws
the error of `JSON.parse` to its caller and the handler answers with status 500 and the
generic error body.  The run consists of the extraction, one completion request, the log line of
`callOpenAIAPI` and the logging of the error: there is a single completion request, and
`JSON.parse` was given the completion text as it came. -/
theorem unparseable_completion_gives_generic_error (env : Env) (req : Request)
    (file : UploadedFile) (text completionText : String) (rest : List (Option String))
    (e : JSError)
    (hfile : req.file = some file)
    (hext : (extractText env file).result = Except.ok text)
    (hc : env.chatCompletionsCreate (chatRequest text) = Except.ok (some completionText :: rest))
    (hparse : env.jsonParse completionText = Except.error e) :
    (callOpenAIAPI env text).result = Except.error (Failure.thrown e) ∧
    (parseHandler env req).result =
      Except.ok ⟨500, JSValue.obj [("error",
        JSValue.str "Insert proper resume, Valid resume required")]⟩ ∧
    (parseHandler env req).trace =
      (extractText env file).trace ++
        [Event.chatCompletion (chatRequest text),
         Event.consoleLog ["string", "And text ", completionText],
         Event.consoleError e] ∧
    ((parseHandler env req).trace.filter Event.isCompletion).length = 1 := by
  have hcall := callOpenAIAPI_ok env text (some completionText) rest hc
  have hcr : (callOpenAIAPI env text).result = Except.error (Failure.thrown e) := by
    rw [hcall]
    show (env.jsonParse completionText).mapError Failure.thrown = _
    rw [hparse]
    rfl
  have ht := parseTry_extract_ok env req file text hfile hext
  have hres : (parseTry env req).result = Except.error (Failure.thrown e) := by
    rw [ht.2, hcr]
  have h := parseHandler_of_error env req e hres
  have htr : (parseHandler env req).trace =
      (extractText env file).trace ++
        [Event.chatCompletion (chatRequest text),
         Event.consoleLog ["string", "And text ", completionText],
         Event.consoleError e] := by
    rw [h, ht.1, hcall]
    simp [contentText]
  refine ⟨hcr, by rw [h]; rfl, htr, ?_⟩
  rw [htr, List.filter_append]
  have hnone : (extractText env file).trace.filter Event.isCompletion = [] := by
    rw [List.filter_eq_nil_iff]
    intro ev hev
    simp [(extractText_events env file ev hev).2]
  rw [hnone]
  rfl

theorem startsWith_image_ne (s : String) (h : startsWith s "image/" = true) :
    s ≠ "application/pdf" ∧
    s ≠ "application/vnd.openxmlformats-officedocument.wordprocessingml.document" := by
  constructor
  · intro hs
    rw [hs] at h
    exact absurd h (by decide)
  · intro hs
    rw [hs] at h
    exact absurd h (by decide)

/-- C8: the dispatch on the media type of an uploaded file runs one extractor on the
buffer of the file: `extractTextFromPDF` for `application/pdf`, whose only event is the
`pdf-parse` call; `extractTextFromDOCX` for the Word-processing XML type, whose only
event is the `mammoth` call; `extractTextFromImage` for every type that starts with
`image/`, all of whose events are `tesseract.js` calls; the calls that take a buffer are
given the buffer of the file.  When the extractor returns a text, `callOpenAIAPI` is run
on exactly that text and calls no extractor, and the next event of the handler is the
completion request whose prompt is the template with that text in it. -/
theorem dispatch_selects_one_extractor (env : Env) (req : Request) (file : UploadedFile)
    (hfile : req.file = some file) :
    (file.mimetype = "application/pdf" →
      extractText env file = extractTextFromPDF env file.buffer ∧
      (extractText env file).trace = [Event.pdfParse file.buffer]) ∧
    (file.mimetype = "application/vnd.openxmlformats-officedocument.wordprocessingml.document" →
      extractText env file = extractTextFromDOCX env file.buffer ∧
      (extractText env file).trace = [Event.mammothExtractRawText file.buffer]) ∧
    (startsWith file.mimetype "image/" = true →
      extractText env file = extractTextFromImage env file.buffer ∧
      ∀ ev ∈ (extractText env file).trace,
        ev.extractor = some Extractor.image ∧
        (ev.buffer = none ∨ ev.buffer = some file.buffer)) ∧
    (∀ text, (extractText env file).result = Except.ok text →
      (parseTry env req).trace = (extractText env file).trace ++ (callOpenAIAPI env text).trace ∧
      (∀ ev ∈ (callOpenAIAPI env text).trace, ev.extractor = none) ∧
      ∃ after, (parseHandler env req).trace =
        (extractText env file).trace ++
          Event.chatCompletion
            { model := "gpt-4o", content := promptHead ++ text ++ promptTail,
              max_tokens := 1500, temperatureTenths := 7 } :: after) := by
  refine ⟨?_, ?_, ?_, ?_⟩
  · intro h
    have hx : extractText env file = extractTextFromPDF env file.buffer := by
      simp [extractText, h]
    exact ⟨hx, by rw [hx, extractTextFromPDF_eq]⟩
  · intro h
    have hx : extractText env file = extractTextFromDOCX env file.buffer := by
      simp [extractText, h]
    exact ⟨hx, by rw [hx, extractTextFromDOCX_eq]⟩
  · intro h
    have hne := startsWith_image_ne file.mimetype h
    have hx : extractText env file = extractTextFromImage env file.buffer := by
      simp [extractText, h, hne.1, hne.2]
    refine ⟨hx, ?_⟩
    rw [hx]
    exact extractTextFromImage_events env file.buffer
  · intro text hext
    have ht := parseTry_extract_ok env req file text hfile hext
    have hcall : ∃ after, (callOpenAIAPI env text).trace =
        Event.chatCompletion (chatRequest text) :: after := by
      cases hc : env.chatCompletionsCreate (chatRequest text) with
      | error e => exact ⟨[], by rw [callOpenAIAPI_error env text e hc]⟩
      | ok choices =>
        cases choices with
        | nil =>
          exact ⟨[], by simp [callOpenAIAPI, Run.andThen, Run.call, Run.lift, hc,
            firstChoiceContent]⟩
        | cons content rest => exact ⟨_, by rw [callOpenAIAPI_ok env text content rest hc]⟩
    obtain ⟨after, hafter⟩ := hcall
    refine ⟨ht.1, callOpenAIAPI_events env text, ?_⟩
    cases hr : (parseTry env req).result with
    | ok r =>
      refine ⟨after, ?_⟩
      rw [parseHandler_of_ok env req r hr, ht.1, hafter]
      rfl
    | error f =>
      cases f with
      | thrown e =>
        refine ⟨after ++ [Event.consoleError e], ?_⟩
        rw [parseHandler_of_error env req e hr, ht.1, hafter]
        simp [chatRequest, buildPrompt]
      | uncaught e =>
        refine ⟨after, ?_⟩
        rw [parseHandler_of_uncaught env req e hr, ht.1, hafter]
        rfl

/-- C10: a completion text that parses is not thereby a success.  When it parses to
`null`, `callOpenAIAPI` returns `null`, reading `spam` throws and the handler answers
with status 500 and the generic error body.  When it parses to a number, a string, the
boolean `false` or an array, the handler answers with status 200 and that value as the
body. -/
theorem parsed_non_record_values (env : Env) (req : Request) (file : UploadedFile)
    (text completionText : String) (rest : List (Option String)) (v : JSValue)
    (hfile : req.file = some file)
    (hext : (extractText env file).result = Except.ok text)
    (hc : env.chatCompletionsCreate (chatRequest text) = Except.ok (some completionText :: rest))
    (hparse : env.jsonParse completionText = Except.ok v) :
    (v = JSValue.null →
      (callOpenAIAPI env text).result = Except.ok JSValue.null ∧
      (parseHandler env req).result =
        Except.ok ⟨500, JSValue.obj [("error",
          JSValue.str "Insert proper resume, Valid resume required")]⟩) ∧
    ((∃ x, v = JSValue.num x) ∨ (∃ s, v = JSValue.str s) ∨ v = JSValue.bool false ∨
        (∃ items, v = JSValue.arr items) →
      (parseHandler env req).result = Except.ok ⟨200, v⟩) := by
  have h := parseTry_reach env req file text (some completionText) rest v hfile hext hc hparse
  constructor
  · intro hv
    subst hv
    refine ⟨by
      rw [callOpenAIAPI_ok env text (some completionText) rest hc]
      show (env.jsonParse completionText).mapError Failure.thrown = _
      rw [hparse]
      rfl, ?_⟩
    rw [parseHandler_of_error env req _ h]
    rfl
  · intro hv
    have h2 : (parseTry env req).result = Except.ok ⟨200, v⟩ := by
      rcases hv with ⟨x, hx⟩ | ⟨s, hs⟩ | hb | ⟨items, hi⟩
      · subst hx; rw [h]; simp [getSpam, spamCondition_undefined]
      · subst hs; rw [h]; simp [getSpam, spamCondition_undefined]
      · subst hb; rw [h]; simp [getSpam, spamCondition_undefined]
      · subst hi; rw [h]; simp [getSpam, spamCondition_undefined]
    rw [parseHandler_of_ok env req _ h2]

/-- C6, as amended: when the completion text parses to an object whose `spam` is the
boolean `true` or the string `"true"`, the handler answers with status 200 and the
warning body; when `spam` is the string `"True"` or `"TRUE"`, the comparison with
`"true"` and with `true` fails and the handler answers with status 200 and the parsed
object itself. -/
theorem spam_flag_casing (env : Env) (req : Request) (file : UploadedFile)
    (text completionText : String) (rest : List (Option String))
    (props : List (String × JSValue))
    (hfile : req.file = some file)
    (hext : (extractText env file).result = Except.ok text)
    (hc : env.chatCompletionsCreate (chatRequest text) = Except.ok (some completionText :: rest))
    (hparse : env.jsonParse completionText = Except.ok (JSValue.obj props)) :
    (lookupProp "spam" props = some (JSValue.bool true) ∨
        lookupProp "spam" props = some (JSValue.str "true") →
      (parseHandler env req).result =
        Except.ok ⟨200, JSValue.obj [("spanResume",
          JSValue.str "⚠️ This resume may be spam or incomplete or Valid resume required")]⟩) ∧
    (lookupProp "spam" props = some (JSValue.str "True") ∨
        lookupProp "spam" props = some (JSValue.str "TRUE") →
      (parseHandler env req).result = Except.ok ⟨200, JSValue.obj props⟩) := by
  have h := parseTry_reach env req file text (some completionText) rest (JSValue.obj props)
    hfile hext hc hparse
  rw [getSpam_obj] at h
  constructor
  · intro hspam
    have h2 : (parseTry env req).result = Except.ok ⟨200, spamBody⟩ := by
      rcases hspam with hs | hs
      · rw [h, hs]; simp only [Option.getD_some, spamCondition_bool_true, if_true]
      · rw [h, hs]; simp only [Option.getD_some, spamCondition_str_true, if_true]
    rw [parseHandler_of_ok env req _ h2]
    rfl
  · intro hspam
    have h2 : (parseTry env req).result = Except.ok ⟨200, JSValue.obj props⟩ := by
      rcases hspam with hs | hs
      · rw [h, hs]; simp [spamCondition_str_True]
      · rw [h, hs]; simp [spamCondition_str_TRUE]
    rw [parseHandler_of_ok env req _ h2]

/-! ## The rate limiter -/

theorem limiter_other (store : Store) (now : Nat) (a b : String) (h : b ≠ a) :
    (limiter store now a).2 b = store b := by
  simp [limiter, rateLimit, h]

theorem limiter_congr (store store2 : Store) (now : Nat) (a : String)
    (h : store a = store2 a) :
    (limiter store now a).1 = (limiter store2 now a).1 ∧
    (limiter store now a).2 a = (limiter store2 now a).2 a := by
  simp [limiter, rateLimit, h]

theorem limiter_fresh (store : Store) (now : Nat) (a : String)
    (h : ∀ c, store a = some c → c.resetTime ≤ now) :
    (limiter store now a).1 = true ∧
    (limiter store now a).2 a = some ⟨1, now + 60 * 1000⟩ := by
  cases hs : store a with
  | none => simp [limiter, rateLimit, hs, limiterOptions]
  | some c =>
    have hc := h c hs
    have hlt : ¬ now < c.resetTime := Nat.not_lt.mpr hc
    simp [limiter, rateLimit, hs, limiterOptions, hlt]

theorem limiter_inside (store : Store) (now : Nat) (a : String) (c : Counter)
    (hs : store a = some c) (hin : now < c.resetTime) :
    (limiter store now a).1 = decide (c.hits + 1 ≤ 10) ∧
    (limiter store now a).2 a = some ⟨c.hits + 1, c.resetTime⟩ := by
  simp [limiter, rateLimit, hs, limiterOptions, hin]

theorem serve_congr (env : Env) (store store2 : Store) (r : Incoming)
    (h : store r.address = store2 r.address) :
    (serve env store r).1 = (serve env store2 r).1 ∧
    (serve env store r).2 r.address = (serve env store2 r).2 r.address := by
  have hl := limiter_congr store store2 r.time r.address h
  unfold serve
  rw [hl.1]
  split
  · exact ⟨rfl, hl.2⟩
  · exact ⟨rfl, hl.2⟩

theorem serve_store (env : Env) (store : Store) (r : Incoming) :
    (serve env store r).2 = (limiter store r.time r.address).2 := by
  unfold serve
  split <;> rfl

theorem serveAll_congr (env : Env) (a : String) (rs : List Incoming) :
    ∀ store store2 : Store, (∀ r ∈ rs, r.address = a) → store a = store2 a →
      serveAll env store rs = serveAll env store2 rs := by
  induction rs with
  | nil => intro _ _ _ _; rfl
  | cons r rs ih =>
    intro store store2 hall h
    have hr : r.address = a := hall r (List.mem_cons_self r rs)
    have hc := serve_congr env store store2 r (by rw [hr]; exact h)
    simp only [serveAll]
    rw [hc.1, ih (serve env store r).2 (serve env store2 r).2
      (fun x hx => hall x (List.mem_cons_of_mem r hx)) (by rw [← hr]; exact hc.2)]

theorem outcomesOf_eq_serveAll_filter (env : Env) (a : String) (rs : List Incoming) :
    ∀ store : Store,
      outcomesOf env a store rs =
        serveAll env store (rs.filter (fun r => decide (r.address = a))) := by
  induction rs with
  | nil => intro _; rfl
  | cons r rs ih =>
    intro store
    by_cases hr : r.address = a
    · simp only [outcomesOf, hr, if_true, List.filter_cons, decide_True, serveAll]
      rw [ih]
    · simp only [outcomesOf, hr, if_false, List.filter_cons, decide_False]
      rw [ih]
      apply serveAll_congr env a
      · intro x hx
        simpa using (List.mem_filter.mp hx).2
      · rw [serve_store]
        exact limiter_other store r.time r.address a (fun h => hr h.symm)

theorem serveAll_window (env : Env) (a : String) (last : Incoming) (rs : List Incoming) :
    ∀ (store : Store) (c : Counter), store a = some c →
      (∀ r ∈ rs ++ [last], r.address = a ∧ r.time < c.resetTime) →
      c.hits + rs.length = 10 →
      serveAll env store (rs ++ [last]) =
        rs.map (fun r => Outcome.handled (parseHandler env r.request)) ++ [Outcome.rejected] := by
  induction rs with
  | nil =>
    intro store c hs hall hlen
    have hl := hall last (by simp)
    have hin := limiter_inside store last.time last.address c (by rw [hl.1]; exact hs) hl.2
    have hh : c.hits = 10 := by simpa using hlen
    simp [serveAll, serve, hin.1, hh]
  | cons r rs ih =>
    intro store c hs hall hlen
    have hr := hall r (by simp)
    have hin := limiter_inside store r.time r.address c (by rw [hr.1]; exact hs) hr.2
    have hle : c.hits + 1 ≤ 10 := by simp at hlen; omega
    have hserve : serve env store r =
        (Outcome.handled (parseHandler env r.request), (limiter store r.time r.address).2) := by
      simp [serve, hin.1, hle]
    have hi := ih (limiter store r.time r.address).2 ⟨c.hits + 1, c.resetTime⟩
      (by rw [← hr.1]; exact hin.2)
      (fun x hx => hall x (List.mem_cons_of_mem r hx))
      (by simp at hlen ⊢; omega)
    show (serve env store r).1 :: serveAll env (serve env store r).2 (rs ++ [last]) = _
    rw [hserve]
    exact congrArg (List.cons _) hi

/-- C9: with `windowMs` of 60 seconds and `max` of 10, when a client address has no
open window and then sends eleven requests, the ten after the first all less than 60
seconds after it, the first ten are handed to the handler and the eleventh is rejected
without the handler being run, whatever requests of other addresses arrive in between.
The outcomes of the requests of any address are those they would have if no other
address had sent anything. -/
theorem eleventh_request_rejected (env : Env) (store : Store) (rs : List Incoming)
    (a : String) (first last : Incoming) (next : List Incoming)
    (hfresh : ∀ c, store a = some c → c.resetTime ≤ first.time)
    (hsel : rs.filter (fun r => decide (r.address = a)) = first :: (next ++ [last]))
    (hlen : next.length = 9)
    (hwin : ∀ r ∈ next ++ [last], r.time < first.time + 60 * 1000) :
    outcomesOf env a store rs =
      (first :: next).map (fun r => Outcome.handled (parseHandler env r.request)) ++
        [Outcome.rejected] ∧
    ∀ (b : String) (store2 : Store),
      outcomesOf env b store2 rs =
        serveAll env store2 (rs.filter (fun r => decide (r.address = b))) := by
  refine ⟨?_, fun b store2 => outcomesOf_eq_serveAll_filter env b rs store2⟩
  rw [outcomesOf_eq_serveAll_filter, hsel]
  have hmem : ∀ r ∈ first :: (next ++ [last]), r.address = a := by
    intro r hr
    rw [← hsel] at hr
    simpa using (List.mem_filter.mp hr).2
  have hfa : first.address = a := hmem first (by simp)
  have hf := limiter_fresh store first.time first.address (by rw [hfa]; exact hfresh)
  have hserve : serve env store first =
      (Outcome.handled (parseHandler env first.request),
        (limiter store first.time first.address).2) := by
    simp [serve, hf.1]
  have hw := serveAll_window env a last next (limiter store first.time first.address).2
    ⟨1, first.time + 60 * 1000⟩ (by rw [← hfa]; exact hf.2)
    (fun r hr => ⟨hmem r (List.mem_cons_of_mem first hr), hwin r hr⟩)
    (by simp [hlen])
  show (serve env store first).1 :: serveAll env (serve env store first).2 (next ++ [last]) = _
  rw [hserve]
  exact congrArg (List.cons _) hw

/-! ## Instances of the claims on stubbed services -/

/-- C1 on a stubbed completion `{"personal_info":{"name":"asdf"},"spam":true}`. -/
theorem spam_flag_gives_warning_witness :
    (parseHandler (stubEnv resumeText spamText (Except.ok (JSValue.obj spamRecord)))
        pdfRequest).result =
      Except.ok ⟨200, JSValue.obj [("spanResume",
        JSValue.str "⚠️ This resume may be spam or incomplete or Valid resume required")]⟩ :=
  spam_flag_gives_warning (stubEnv resumeText spamText (Except.ok (JSValue.obj spamRecord)))
    pdfRequest pdfFile resumeText spamText [] spamRecord rfl rfl rfl
    (by simp [stubEnv]) (Or.inl rfl)

/-- C2 on a stubbed completion that violates the schema: `personal_info`, which the
schema requires, is missing, and the record is passed through all the same. -/
theorem non_spam_record_passes_through_witness :
    missesRequiredKey schema (JSValue.obj plainRecord) = true ∧
    (parseHandler (stubEnv resumeText plainText (Except.ok (JSValue.obj plainRecord)))
        pdfRequest).result = Except.ok ⟨200, JSValue.obj plainRecord⟩ :=
  ⟨by decide,
   non_spam_record_passes_through
    (stubEnv resumeText plainText (Except.ok (JSValue.obj plainRecord)))
    pdfRequest pdfFile resumeText plainText [] plainRecord rfl rfl rfl
    (by simp [stubEnv]) (Or.inl rfl)⟩

/-- C3 on the request without a file. -/
theorem no_file_gives_generic_error_witness :
    (parseHandler (stubEnv resumeText spamText (Except.ok (JSValue.obj spamRecord)))
        { file := none }).trace = [Event.consoleError ⟨"Error", "No file uploaded."⟩] :=
  (no_file_gives_generic_error
    (stubEnv resumeText spamText (Except.ok (JSValue.obj spamRecord)))
    { file := none } rfl).2.1

/-- C4 on a `text/plain` upload. -/
theorem unsupported_type_gives_generic_error_witness :
    (parseHandler (stubEnv resumeText spamText (Except.ok (JSValue.obj spamRecord)))
        { file := some txtFile }).trace =
      [Event.consoleError ⟨"Error", "Unsupported file type."⟩] :=
  (unsupported_type_gives_generic_error
    (stubEnv resumeText spamText (Except.ok (JSValue.obj spamRecord)))
    { file := some txtFile } txtFile rfl (by decide) (by decide) (by decide)).2.1

/-- C5 on a stubbed completion wrapped in prose. -/
theorem unparseable_completion_gives_generic_error_witness :
    (parseHandler (stubEnv resumeText proseText (Except.error proseError)) pdfRequest).result =
      Except.ok ⟨500, JSValue.obj [("error",
        JSValue.str "Insert proper resume, Valid resume required")]⟩ :=
  (unparseable_completion_gives_generic_error
    (stubEnv resumeText proseText (Except.error proseError))
    pdfRequest pdfFile resumeText proseText [] proseError rfl rfl rfl
    (by simp [stubEnv])).2.1

/-- C6 does not hold as stated: on a stubbed completion
`{"personal_info":{"name":"asdf"},"spam":"True"}` the handler answers with the full
record and not with the warning body. -/
theorem spam_capitalised_not_flagged :
    (parseHandler
        (stubEnv resumeText capitalisedText (Except.ok (JSValue.obj capitalisedRecord)))
        pdfRequest).result = Except.ok ⟨200, JSValue.obj capitalisedRecord⟩ ∧
    (parseHandler
        (stubEnv resumeText capitalisedText (Except.ok (JSValue.obj capitalisedRecord)))
        pdfRequest).result ≠ Except.ok ⟨200, spamBody⟩ := by
  have h : (parseHandler
        (stubEnv resumeText capitalisedText (Except.ok (JSValue.obj capitalisedRecord)))
        pdfRequest).result = Except.ok ⟨200, JSValue.obj capitalisedRecord⟩ := by
    have ht := parseTry_reach
      (stubEnv resumeText capitalisedText (Except.ok (JSValue.obj capitalisedRecord)))
      pdfRequest pdfFile resumeText (some capitalisedText) [] (JSValue.obj capitalisedRecord)
      rfl rfl rfl (by simp [stubEnv, contentText])
    rw [getSpam_obj] at ht
    have hl : lookupProp "spam" capitalisedRecord = some (JSValue.str "True") := rfl
    rw [hl] at ht
    simp only [Option.getD_some, spamCondition_str_True] at ht
    rw [parseHandler_of_ok _ _ _ ht]
  refine ⟨h, ?_⟩
  rw [h]
  simp [spamBody, capitalisedRecord]

/-- The amended C6 on two stubbed completions: `spam` the boolean `true` gives the
warning body, `spam` the string `"True"` gives the full record. -/
theorem spam_flag_casing_witness :
    (parseHandler (stubEnv resumeText spamText (Except.ok (JSValue.obj spamRecord)))
        pdfRequest).result =
      Except.ok ⟨200, JSValue.obj [("spanResume",
        JSValue.str "⚠️ This resume may be spam or incomplete or Valid resume required")]⟩ ∧
    (parseHandler
        (stubEnv resumeText capitalisedText (Except.ok (JSValue.obj capitalisedRecord)))
        pdfRequest).result = Except.ok ⟨200, JSValue.obj capitalisedRecord⟩ :=
  ⟨(spam_flag_casing (stubEnv resumeText spamText (Except.ok (JSValue.obj spamRecord)))
      pdfRequest pdfFile resumeText spamText [] spamRecord rfl rfl rfl
      (by simp [stubEnv])).1 (Or.inl rfl),
   (spam_flag_casing
      (stubEnv resumeText capitalisedText (Except.ok (JSValue.obj capitalisedRecord)))
      pdfRequest pdfFile resumeText capitalisedText [] capitalisedRecord rfl rfl rfl
      (by simp [stubEnv])).2 (Or.inl rfl)⟩

/-- C7 at the input on which the code departs from it.  A PNG upload whose `recognize`
job the worker rejects fails inside an extractor; the run of the handler is the four
worker calls and ends with the uncaught exception, so the `catch` block does not run,
nothing is logged by it and no response is sent.  The request without a file, on the
same services, is answered with status 500 and the fixed error body: the two failing
requests are not treated alike. -/
theorem ocr_failure_exits_without_response :
    FailureCause unreadableImageEnv pngRequest (Failure.uncaught readError) ∧
    (parseHandler unreadableImageEnv pngRequest).result =
      Except.error (Failure.uncaught readError) ∧
    (parseHandler unreadableImageEnv pngRequest).trace =
      [Event.createWorker, Event.loadLanguage "eng", Event.workerInit "eng",
       Event.recognize pngFile.buffer] ∧
    (parseHandler unreadableImageEnv { file := none }).result =
      Except.ok ⟨500, JSValue.obj [("error",
        JSValue.str "Insert proper resume, Valid resume required")]⟩ ∧
    (parseHandler unreadableImageEnv pngRequest).result ≠
      (parseHandler unreadableImageEnv { file := none }).result := by
  have hcause : FailureCause unreadableImageEnv pngRequest (Failure.uncaught readError) :=
    FailureCause.extractor pngFile (Failure.uncaught readError) rfl rfl
  have hpng : parseHandler unreadableImageEnv pngRequest =
      ⟨[Event.createWorker, Event.loadLanguage "eng", Event.workerInit "eng",
        Event.recognize pngFile.buffer], Except.error (Failure.uncaught readError)⟩ := by
    have ht := parseTry_extract_error unreadableImageEnv pngRequest pngFile
      (Failure.uncaught readError) rfl rfl
    rw [parseHandler_of_uncaught unreadableImageEnv pngRequest readError (by rw [ht]), ht]
    rfl
  have hnone : (parseHandler unreadableImageEnv { file := none }).result =
      Except.ok ⟨500, errorBody⟩ :=
    thrown_failure_gives_generic_error unreadableImageEnv { file := none } _
      (FailureCause.noFile rfl)
  refine ⟨hcause, by rw [hpng], by rw [hpng], hnone, ?_⟩
  rw [hpng, hnone]
  simp

/-- C8 on a PNG upload: the extractor is `extractTextFromImage`. -/
theorem dispatch_selects_one_extractor_witness :
    extractText (stubEnv resumeText spamText (Except.ok (JSValue.obj spamRecord))) pngFile =
      extractTextFromImage (stubEnv resumeText spamText (Except.ok (JSValue.obj spamRecord)))
        pngFile.buffer :=
  ((dispatch_selects_one_extractor
    (stubEnv resumeText spamText (Except.ok (JSValue.obj spamRecord)))
    { file := some pngFile } pngFile rfl).2.2.1 (by decide)).1

/-- C9 on eleven requests of one address within ten seconds. -/
theorem eleventh_request_rejected_witness :
    outcomesOf (stubEnv resumeText spamText (Except.ok (JSValue.obj spamRecord)))
        "203.0.113.7" emptyStore burst =
      List.replicate 10 (Outcome.handled
        (parseHandler (stubEnv resumeText spamText (Except.ok (JSValue.obj spamRecord)))
          { file := none })) ++ [Outcome.rejected] :=
  (eleventh_request_rejected
    (stubEnv resumeText spamText (Except.ok (JSValue.obj spamRecord)))
    emptyStore burst "203.0.113.7" (arrival "203.0.113.7" 0) (arrival "203.0.113.7" 10000)
    [arrival "203.0.113.7" 1000, arrival "203.0.113.7" 2000, arrival "203.0.113.7" 3000,
     arrival "203.0.113.7" 4000, arrival "203.0.113.7" 5000, arrival "203.0.113.7" 6000,
     arrival "203.0.113.7" 7000, arrival "203.0.113.7" 8000, arrival "203.0.113.7" 9000]
    (fun c h => by simp [emptyStore] at h) rfl rfl (by decide)).1

/-- C10 on a stubbed completion `null`. -/
theorem parsed_non_record_values_witness :
    (parseHandler (stubEnv resumeText "null" (Except.ok JSValue.null)) pdfRequest).result =
      Except.ok ⟨500, JSValue.obj [("error",
        JSValue.str "Insert proper resume, Valid resume required")]⟩ :=
  ((parsed_non_record_values (stubEnv resumeText "null" (Except.ok JSValue.null))
    pdfRequest pdfFile resumeText "null" [] JSValue.null rfl rfl rfl
    (by simp [stubEnv])).1 rfl).2

end ResumeReader
